import Mathlib

/-!
Shallow embedding of the Benraz MCP server gateway (Express/SSE variant):
tool registry and Zod parameter schemas, the handshake/capability payload,
the session registry, the SSE framer, the channel-open handler and the
tool-call handler, together with the weather get-alerts tool handler.
Machine-observable effects (handler invocation, SSE pushes, synchronous
HTTP replies) are modelled as an ordered action trace.
-/

/-- JSON values, as carried in request bodies and tool parameters.
Numbers are modelled as integers (all schema bounds in the source are
integral and every concrete payload in scope is integral). -/
inductive JsonValue where
  | str (s : String)
  | num (n : Int)
  | bool (b : Bool)
  | null
  | obj (fields : List (String × JsonValue))
  | arr (elems : List JsonValue)

/-- The name Zod reports for a received value in invalid-type messages. -/
def jsonTypeName : JsonValue → String
  | .str _ => "string"
  | .num _ => "number"
  | .bool _ => "boolean"
  | .null => "null"
  | .obj _ => "object"
  | .arr _ => "array"

/-- JavaScript Array.prototype.join with a separator, as used at every
frame-construction and text-formatting site in the source. -/
def jsJoin (sep : String) : List String → String
  | [] => ""
  | [x] => x
  | x :: y :: xs => x ++ sep ++ jsJoin sep (y :: xs)

/-- Zod schema types as used by the four tool registrations:
z.string() with an optional .length, z.number() with optional .min/.max,
and .optional()/.default() wrappers; each layer can carry a .describe
description. -/
inductive ZodType where
  | zstring (len : Option Nat) (description : Option String)
  | znumber (min max : Option Int) (description : Option String)
  | zoptional (inner : ZodType) (description : Option String)
  | zdefault (inner : ZodType) (description : Option String)

/-- The test in the handshake builder and in zodToJsonSchemaProperty:
is the top-level type a ZodOptional or ZodDefault. -/
def isOptionalOrDefault : ZodType → Bool
  | .zoptional _ _ => true
  | .zdefault _ _ => true
  | _ => false

/-- A single Zod validation issue; the gateway only reads .message. -/
structure ZodIssue where
  message : String

/-- Zod default issue messages produced when validating one present value
against one field type (min then max, as the checks are chained). -/
def validateValue : ZodType → JsonValue → List String
  | .zstring len _, .str s =>
      match len with
      | some n =>
          if s.length = n then []
          else ["String must contain exactly " ++ toString n ++ " character(s)"]
      | none => []
  | .zstring _ _, v => ["Expected string, received " ++ jsonTypeName v]
  | .znumber lo hi _, .num n =>
      (match lo with
       | some l => if n < l then ["Number must be greater than or equal to " ++ toString l] else []
       | none => []) ++
      (match hi with
       | some h => if h < n then ["Number must be less than or equal to " ++ toString h] else []
       | none => [])
  | .znumber _ _ _, v => ["Expected number, received " ++ jsonTypeName v]
  | .zoptional inner _, v => validateValue inner v
  | .zdefault inner _, v => validateValue inner v

/-- Issues contributed by one object field: a missing key is fine for
optional/default fields and a Required issue otherwise; a present value is
validated against the field type. -/
def fieldIssues (fields : List (String × JsonValue)) (key : String) (zt : ZodType) :
    List ZodIssue :=
  match fields.lookup key with
  | none => if isOptionalOrDefault zt then [] else [⟨"Required"⟩]
  | some v => (validateValue zt v).map (fun m => ⟨m⟩)

/-- ZodObject.parse over the shape: collects the issues of every field (not
just the first), and on success returns the validated key-value pairs in
shape order (absent optional keys are omitted). Parsing a missing or
non-object payload yields the corresponding single invalid-type issue. -/
def zodParse (shape : List (String × ZodType)) (raw : Option JsonValue) :
    Except (List ZodIssue) (List (String × JsonValue)) :=
  match raw with
  | none => .error [⟨"Required"⟩]
  | some (.obj fields) =>
      let issues := shape.foldr (fun kt acc => fieldIssues fields kt.1 kt.2 ++ acc) []
      if issues.isEmpty then
        .ok (shape.foldr
          (fun kt acc =>
            match fields.lookup kt.1 with
            | some v => (kt.1, v) :: acc
            | none => acc) [])
      else .error issues
  | some v => .error [⟨"Expected object, received " ++ jsonTypeName v⟩]

/-- A registered tool: description and parameter schema. The async handler
is modelled separately as a function passed to the gateway, since each
handler closes over an external collaborator. -/
structure ToolDefinition where
  description : String
  schema : List (String × ZodType)

/-- Schema of get-alerts: state, a required 2-character string. -/
def getAlertsSchema : List (String × ZodType) :=
  [("state", .zstring (some 2) (some "Two-letter state code (e.g. CA, NY)"))]

/-- Schema of get-forecast: required latitude in [-90, 90] and longitude in
[-180, 180]. -/
def getForecastSchema : List (String × ZodType) :=
  [("latitude", .znumber (some (-90)) (some 90) (some "Latitude of the location")),
   ("longitude", .znumber (some (-180)) (some 180) (some "Longitude of the location"))]

/-- Schema of brave-web-search: required query, optional count in [1, 20]. -/
def braveSearchSchema : List (String × ZodType) :=
  [("query", .zstring none (some "The search query")),
   ("count", .zoptional (.znumber (some 1) (some 20) none)
      (some "Number of results to return (max 20)"))]

/-- Schema of google-search: required query, optional count in [1, 10]. -/
def googleSearchSchema : List (String × ZodType) :=
  [("query", .zstring none (some "The search query")),
   ("count", .zoptional (.znumber (some 1) (some 10) none)
      (some "Number of results to return (max 10)"))]

def toolGetAlerts : ToolDefinition :=
  ⟨"Get weather alerts for a state", getAlertsSchema⟩

def toolGetForecast : ToolDefinition :=
  ⟨"Get weather forecast for a location", getForecastSchema⟩

def toolBraveSearch : ToolDefinition :=
  ⟨"Search the web using Brave Search", braveSearchSchema⟩

def toolGoogleSearch : ToolDefinition :=
  ⟨"Search the web using Google Custom Search", googleSearchSchema⟩

/-- The tool registry after the four registerTool calls, in registration
(Map insertion) order. -/
def tools : List (String × ToolDefinition) :=
  [("get-alerts", toolGetAlerts),
   ("get-forecast", toolGetForecast),
   ("brave-web-search", toolBraveSearch),
   ("google-search", toolGoogleSearch)]

/-- tools.has / tools.get combined. -/
def lookupTool (name : String) : Option ToolDefinition :=
  tools.lookup name

/-- The JSON-schema-shaped property the handshake advertises per field. -/
structure JsonSchemaProperty where
  type : String
  description : Option String
  deriving DecidableEq

/-- zodToJsonSchemaProperty: optional/default recurse into the inner type
and keep the outer description only when the inner one is absent; strings
and numbers map to their JSON type plus description. -/
def zodToJsonSchemaProperty : ZodType → JsonSchemaProperty
  | .zoptional inner desc =>
      let innerSchema := zodToJsonSchemaProperty inner
      match innerSchema.description with
      | some _ => innerSchema
      | none => { innerSchema with description := desc }
  | .zdefault inner desc =>
      let innerSchema := zodToJsonSchemaProperty inner
      match innerSchema.description with
      | some _ => innerSchema
      | none => { innerSchema with description := desc }
  | .zstring _ desc => { type := "string", description := desc }
  | .znumber _ _ desc => { type := "number", description := desc }

/-- One capability entry for one tool; required is present only when the
computed required list is non-empty (the spread of a conjunction in the
source drops the field otherwise). -/
structure ToolCapability where
  name : String
  description : String
  properties : List (String × JsonSchemaProperty)
  required : Option (List String)
  deriving DecidableEq

/-- The per-tool capability builder inside mcpHandshakeResponse: one
property per schema field, and required collects exactly the fields whose
top-level type is neither ZodOptional nor ZodDefault. -/
def toolCapability (name : String) (d : ToolDefinition) : ToolCapability :=
  let properties := d.schema.map (fun kt => (kt.1, zodToJsonSchemaProperty kt.2))
  let required := (d.schema.filter (fun kt => !(isOptionalOrDefault kt.2))).map Prod.fst
  { name := name, description := d.description, properties := properties,
    required := if required.length > 0 then some required else none }

/-- The handshake payload sent as the first SSE frame. -/
structure McpHandshakeResponse where
  type : String
  mcp_version : String
  server_name : String
  server_version : String
  capTools : List ToolCapability
  deriving DecidableEq

/-- mcpHandshakeResponse, built once from the registry in insertion order. -/
def mcpHandshakeResponse : McpHandshakeResponse :=
  { type := "mcp_handshake_response"
    mcp_version := "1.0"
    server_name := "MyCustom_MCP_Express_Server"
    server_version := "1.0.0"
    capTools := tools.map (fun nd => toolCapability nd.1 nd.2) }

/-- A push-channel handle; broken = true models a channel whose write
throws (the try/catch sites observe exactly this). -/
structure Channel where
  broken : Bool
  deriving DecidableEq

/-- The session registry: activeSseClients, a map from client token to
channel handle, modelled as an association list in Map insertion order. -/
structure GatewayState where
  activeSseClients : List (String × Channel)

/-- Map.set: replace in place when the key exists, append otherwise. -/
def mapSet (l : List (String × Channel)) (k : String) (v : Channel) :
    List (String × Channel) :=
  if l.any (fun p => p.1 = k) then
    l.map (fun p => if p.1 = k then (k, v) else p)
  else l ++ [(k, v)]

/-- Map.delete: remove every binding of the key. -/
def mapDelete (l : List (String × Channel)) (k : String) :
    List (String × Channel) :=
  l.filter (fun p => p.1 != k)

/-- activeSseClients.get / activeSseClients.has. -/
def lookupClient (st : GatewayState) (clientId : String) : Option Channel :=
  st.activeSseClients.lookup clientId

/-- The teardown run by the close/error callbacks registered in the /sse
handler: activeSseClients.delete of the client token. -/
def channelTeardown (st : GatewayState) (clientId : String) : GatewayState :=
  ⟨mapDelete st.activeSseClients clientId⟩

/-- A tool handler result object: the source returns text results of the
shape with a type tag and a text body. -/
structure ToolResult where
  type : String
  text : String
  deriving DecidableEq

/-- Payloads serialized into the data line of SSE frames and into
synchronous JSON replies; the constructor records the discriminating
type field of the source object. -/
inductive MCPayload where
  | handshake (payload : McpHandshakeResponse)
  | clientIdAssigned (client_id : String)
  | toolResponse (id : Option String) (tool_name : String) (tool_response : ToolResult)
  | errorPayload (id : Option String) (error_type : String) (message : String)
  | processing (id : Option String) (message : String)
  deriving DecidableEq

/-- Observable effects of the gateway, in the order they are issued. -/
inductive GwAction where
  | handlerInvoked (tool_name : String) (params : List (String × JsonValue))
  | ssePush (clientId : String) (eventName : String) (payload : MCPayload)
  | sseWriteFailed (clientId : String)
  | syncReply (status : Nat) (body : MCPayload)

/-- Constructor tests used to state trace properties. -/
def GwAction.isPush : GwAction → Bool
  | .ssePush _ _ _ => true
  | _ => false

def GwAction.isHandlerInvoked : GwAction → Bool
  | .handlerInvoked _ _ => true
  | _ => false

def GwAction.isAcceptanceReply : GwAction → Bool
  | .syncReply 202 _ => true
  | _ => false

/-- sendSseMessage: look the client up; if present, write the frame — a
throwing write is caught and merely logged, the registry is untouched
(the source comment reads: Optionally remove client if write fails);
an absent client is a warn-only no-op. -/
def sendSseMessage (st : GatewayState) (clientId : String) (eventName : String)
    (data : MCPayload) : GatewayState × List GwAction :=
  match lookupClient st clientId with
  | some ch =>
      if ch.broken then (st, [.sseWriteFailed clientId])
      else (st, [.ssePush clientId eventName data])
  | none => (st, [])

/-- clientId generation in the /sse handler: a time-based prefix plus a
random base-36 suffix. -/
def genClientId (now : Nat) (rand : String) : String :=
  "client-" ++ toString now ++ "-" ++ rand

/-- The /sse handler: store the client, then write the handshake frame and
the client-id-assigned frame in order inside one try block; if a write
throws, end the response and delete the client. -/
def sseOpen (st : GatewayState) (now : Nat) (rand : String) (ch : Channel) :
    GatewayState × List GwAction :=
  let clientId := genClientId now rand
  let st1 : GatewayState := ⟨mapSet st.activeSseClients clientId ch⟩
  if ch.broken then
    (⟨mapDelete st1.activeSseClients clientId⟩, [.sseWriteFailed clientId])
  else
    (st1,
     [.ssePush clientId "mcp" (.handshake mcpHandshakeResponse),
      .ssePush clientId "mcp" (.clientIdAssigned clientId)])

/-- The SSE frame constructed at each write site: the three labeled lines
and an empty string, joined by the newline character, plus a trailing
newline. -/
def frameMessage (msgId eventName dataJson : String) : String :=
  jsJoin "\n" ["id: " ++ msgId, "event: " ++ eventName, "data: " ++ dataJson, ""] ++ "\n"

/-- Outcome of awaiting a tool handler: a resolved result object, or a
rejection carrying the error message. -/
inductive HandlerOutcome where
  | ok (result : ToolResult)
  | err (message : String)

/-- The body of a POST /tool_call request; absent JSON fields are none. -/
structure ToolCallRequest where
  id : Option String
  tool_name : Option String
  parameters : Option JsonValue
  client_id : Option String

/-- messageId or the string unknown when the id is JS-falsy. -/
def jsOrUnknown : Option String → String
  | some s => if s = "" then "unknown" else s
  | none => "unknown"

/-- toolCallHandler: the four checks in source order — falsy client_id,
unknown session, falsy/unregistered tool name, Zod parse — then the
handler await, the SSE push of the result or error, and the synchronous
reply last. run stands for tool.handler. -/
def toolCallHandler (run : String → List (String × JsonValue) → HandlerOutcome)
    (st : GatewayState) (req : ToolCallRequest) : GatewayState × List GwAction :=
  match req.client_id with
  | none =>
      (st, [.syncReply 400 (.errorPayload (some (jsOrUnknown req.id)) "missing_client_id"
        "client_id is required in the request body for /tool_call.")])
  | some clientId =>
      if clientId = "" then
        (st, [.syncReply 400 (.errorPayload (some (jsOrUnknown req.id)) "missing_client_id"
          "client_id is required in the request body for /tool_call.")])
      else
        match lookupClient st clientId with
        | none =>
            (st, [.syncReply 400 (.errorPayload (some (jsOrUnknown req.id)) "invalid_client_id"
              ("No active SSE session found for client_id: " ++ clientId ++
               ". Please connect to /sse first."))])
        | some _ =>
            let toolNameStr := match req.tool_name with
              | some tn => tn
              | none => "undefined"
            match req.tool_name.bind lookupTool with
            | none =>
                let payload := MCPayload.errorPayload req.id "unknown_tool"
                  ("Tool \x27" ++ toolNameStr ++ "\x27 not found.")
                let sent := sendSseMessage st clientId "mcp" payload
                (sent.1, sent.2 ++ [.syncReply 400 payload])
            | some tool =>
                match zodParse tool.schema req.parameters with
                | .error issues =>
                    let payload := MCPayload.errorPayload req.id "invalid_parameters"
                      ("Parameter validation failed: " ++
                        jsJoin ", " (issues.map ZodIssue.message))
                    let sent := sendSseMessage st clientId "mcp" payload
                    (sent.1, sent.2 ++ [.syncReply 400 payload])
                | .ok validatedParams =>
                    match run toolNameStr validatedParams with
                    | .ok result =>
                        let payload := MCPayload.toolResponse req.id toolNameStr result
                        let sent := sendSseMessage st clientId "mcp" payload
                        (sent.1, .handlerInvoked toolNameStr validatedParams :: sent.2 ++
                          [.syncReply 202 (.processing req.id
                            "Tool call accepted, response will be sent via SSE.")])
                    | .err m =>
                        let payload := MCPayload.errorPayload req.id "tool_error" m
                        let sent := sendSseMessage st clientId "mcp" payload
                        (sent.1, .handlerInvoked toolNameStr validatedParams :: sent.2 ++
                          [.syncReply 500 payload])

/-- config.WEATHER_API_BASE default, the weather collaborator base URL. -/
def NWS_API_BASE : String := "https://api.weather.gov"

/-- The properties of one alert feature from the weather collaborator. -/
structure AlertProps where
  event : Option String
  areaDesc : Option String
  severity : Option String
  status : Option String
  headline : Option String

structure AlertFeature where
  properties : AlertProps

/-- The alerts response from the weather collaborator; features may be
absent. -/
structure AlertsResponse where
  features : Option (List AlertFeature)

/-- weatherService.formatAlert. -/
def formatAlert (feature : AlertFeature) : String :=
  let props := feature.properties
  jsJoin "\n"
    ["Event: " ++ props.event.getD "Unknown",
     "Area: " ++ props.areaDesc.getD "Unknown",
     "Severity: " ++ props.severity.getD "Unknown",
     "Status: " ++ props.status.getD "Unknown",
     "Headline: " ++ props.headline.getD "No headline",
     "---"]

/-- JavaScript String.prototype.toUpperCase, on the ASCII range the state
codes inhabit: uppercase every character. -/
def jsToUpperCase (s : String) : String := ⟨s.data.map Char.toUpper⟩

/-- The get-alerts tool handler, with the weather collaborator injected as
nws (makeNWSRequest normalises upstream failures to none). -/
def getAlertsHandler (nws : String → Option AlertsResponse) (state : String) :
    ToolResult :=
  let stateCode := jsToUpperCase state
  let alertsUrl := NWS_API_BASE ++ "/alerts?area=" ++ stateCode
  match nws alertsUrl with
  | none => ⟨"text", "Failed to retrieve alerts data"⟩
  | some alertsData =>
      let features := alertsData.features.getD []
      if features.length = 0 then
        ⟨"text", "No active alerts for " ++ stateCode⟩
      else
        ⟨"text", "Active alerts for " ++ stateCode ++ ":\n\n" ++
          jsJoin "\n" (features.map formatAlert)⟩

/-- tool.handler dispatch restricted to the get-alerts registration, the
only handler a claim inspects; the validated state parameter is
destructured as in the source. -/
def runGetAlerts (nws : String → Option AlertsResponse) :
    String → List (String × JsonValue) → HandlerOutcome :=
  fun name validatedParams =>
    if name = "get-alerts" then
      match validatedParams.lookup "state" with
      | some (.str s) => .ok (getAlertsHandler nws s)
      | _ => .err "Tool execution failed."
    else .err "Tool execution failed."

/-- Does an action carry a synchronous error reply with this error_type. -/
def GwAction.isErrorReplyWith (et : String) : GwAction → Bool
  | .syncReply _ (.errorPayload _ e _) => e = et
  | _ => false

/-- A handler that always resolves, for concrete traces. -/
def runOk : String → List (String × JsonValue) → HandlerOutcome :=
  fun _ _ => .ok ⟨"text", "ok"⟩

/-- A handler that always rejects, for concrete traces. -/
def runErr : String → List (String × JsonValue) → HandlerOutcome :=
  fun _ _ => .err "unreached"

/-- A registry with one live session c over a working channel. -/
def stLive : GatewayState := ⟨[("c", ⟨false⟩)]⟩

/-- A registry with one session c whose channel write throws. -/
def stBroken : GatewayState := ⟨[("c", ⟨true⟩)]⟩

/-- A concrete schema-valid get-alerts invocation request. -/
def reqAlertsZZ : ToolCallRequest :=
  ⟨some "m1", some "get-alerts", some (.obj [("state", .str "ZZ")]), some "c"⟩

/-- A brave-web-search invocation request with count 25. -/
def reqBrave25 : ToolCallRequest :=
  ⟨some "m4", some "brave-web-search",
   some (.obj [("query", .str "x"), ("count", .num 25)]), some "c"⟩

/-- An invocation request whose client_id is the empty string. -/
def reqEmptyCid : ToolCallRequest :=
  ⟨some "m7", some "get-alerts", none, some ""⟩

/-- A get-forecast invocation request violating both coordinate bounds. -/
def reqForecast999 : ToolCallRequest :=
  ⟨some "m3", some "get-forecast",
   some (.obj [("latitude", .num 999), ("longitude", .num 999)]), some "c"⟩

/-- An invocation request that omits tool_name entirely. -/
def reqNoToolName : ToolCallRequest :=
  ⟨some "m10", none, some (.obj []), some "c"⟩

/-- A get-alerts request with state ZZ, parametrised by id and session. -/
def reqAlerts (oid : Option String) (cid : String) : ToolCallRequest :=
  ⟨oid, some "get-alerts", some (.obj [("state", .str "ZZ")]), some cid⟩

/-- An arbitrary concrete payload for exercising the send path. -/
def payload0 : MCPayload := .errorPayload (some "m") "tool_error" "x"

/-- A weather collaborator returning a response with zero features. -/
def nwsEmpty : String → Option AlertsResponse := fun _ => some ⟨some []⟩

/-- Looking a key up after mapDelete of that key always misses. -/
theorem lookup_mapDelete (l : List (String × Channel)) (c : String) :
    (mapDelete l c).lookup c = none := by
  induction l with
  | nil => rfl
  | cons kv t ih =>
      by_cases h : kv.1 = c
      · simpa [mapDelete, List.filter_cons, h] using ih
      · have hne : (kv.1 != c) = true := by simp [h]
        have hne2 : (c == kv.1) = false := by
          simp [Ne.symm h]
        simpa [mapDelete, List.filter_cons, hne, List.lookup, hne2] using ih

/-- mapDelete is idempotent. -/
theorem mapDelete_idem (l : List (String × Channel)) (c : String) :
    mapDelete (mapDelete l c) c = mapDelete l c := by
  induction l with
  | nil => rfl
  | cons kv t ih =>
      by_cases h : kv.1 = c <;>
        simp [mapDelete, List.filter_cons, h] at *

/-- Claim C2: the handshake capability list has exactly one entry per
registered tool, in registration order, and each entry advertises as
required exactly the schema fields without an optional/default marker —
for the four tools: state; latitude and longitude; query; query. -/
theorem c2_handshake_capabilities :
    mcpHandshakeResponse.capTools.map ToolCapability.name = tools.map Prod.fst ∧
    mcpHandshakeResponse.type = "mcp_handshake_response" ∧
    mcpHandshakeResponse.capTools =
      [{ name := "get-alerts", description := "Get weather alerts for a state",
         properties := [("state",
           { type := "string", description := some "Two-letter state code (e.g. CA, NY)" })],
         required := some ["state"] },
       { name := "get-forecast", description := "Get weather forecast for a location",
         properties := [("latitude",
           { type := "number", description := some "Latitude of the location" }),
          ("longitude",
           { type := "number", description := some "Longitude of the location" })],
         required := some ["latitude", "longitude"] },
       { name := "brave-web-search", description := "Search the web using Brave Search",
         properties := [("query",
           { type := "string", description := some "The search query" }),
          ("count",
           { type := "number", description := some "Number of results to return (max 20)" })],
         required := some ["query"] },
       { name := "google-search", description := "Search the web using Google Custom Search",
         properties := [("query",
           { type := "string", description := some "The search query" }),
          ("count",
           { type := "number", description := some "Number of results to return (max 10)" })],
         required := some ["query"] }] ∧
    (∀ cap ∈ mcpHandshakeResponse.capTools, ∀ nd ∈ tools, cap.name = nd.1 →
      cap.required.getD [] =
        ((nd.2.schema.filter (fun kt => !(isOptionalOrDefault kt.2))).map Prod.fst)) := by
  refine ⟨rfl, rfl, rfl, ?_⟩
  decide

/-- Claim C6: every wire frame written to the channel is exactly the three
labeled text lines — id, event, data — each terminated by a newline
character, followed by one blank line (the terminating newline). -/
theorem c6_wire_frame (msgId eventName dataJson : String) :
    frameMessage msgId eventName dataJson =
      (("id: " ++ msgId) ++ "\n") ++
      ((("event: " ++ eventName) ++ "\n") ++ (("data: " ++ dataJson) ++ "\n")) ++
      "\n" := by
  simp [frameMessage, jsJoin]

/-- Claim C8: on a successful channel open exactly two Events are pushed,
in order: the handshake payload (type mcp_handshake_response, listing the
4 registered tools) and then the client-id assignment carrying the
non-empty token of the session. -/
theorem c8_channel_open (st : GatewayState) (now : Nat) (rand : String) :
    (sseOpen st now rand ⟨false⟩).2 =
      [.ssePush (genClientId now rand) "mcp" (.handshake mcpHandshakeResponse),
       .ssePush (genClientId now rand) "mcp" (.clientIdAssigned (genClientId now rand))] ∧
    mcpHandshakeResponse.type = "mcp_handshake_response" ∧
    mcpHandshakeResponse.capTools.length = 4 ∧
    genClientId now rand ≠ "" := by
  refine ⟨rfl, rfl, rfl, ?_⟩
  intro h
  have hlen := congrArg String.length h
  simp [genClientId] at hlen
  exact absurd hlen.1.2 (by decide)

/-- Claim C7 counterexample: a request whose client_id is present but
empty (and mapped to no session — the registry is empty) is rejected with
error_type missing_client_id, not the invalid_client_id the claim requires
for every present-but-unmapped client_id; the falsy check in the source
fires before the registry lookup. -/
theorem c7_counterexample :
    (toolCallHandler runErr ⟨[]⟩ reqEmptyCid).2.countP
        (GwAction.isErrorReplyWith "invalid_client_id") = 0 ∧
    (toolCallHandler runErr ⟨[]⟩ reqEmptyCid).2 =
      [.syncReply 400 (.errorPayload (some "m7") "missing_client_id"
        "client_id is required in the request body for /tool_call.")] :=
  ⟨rfl, rfl⟩

/-- Claim C7 amended: a client_id missing from the body, or present but
empty, is rejected synchronously with status 400 and error_type
missing_client_id; a present non-empty client_id not mapped to a live
session is rejected with status 400 and error_type invalid_client_id; in
every case no Event is pushed on any channel. -/
theorem c7_client_id_checks :
    (∀ run st req, req.client_id = none →
      (toolCallHandler run st req).2 =
        [.syncReply 400 (.errorPayload (some (jsOrUnknown req.id)) "missing_client_id"
          "client_id is required in the request body for /tool_call.")] ∧
      (toolCallHandler run st req).2.countP GwAction.isPush = 0) ∧
    (∀ run st req, req.client_id = some "" →
      (toolCallHandler run st req).2 =
        [.syncReply 400 (.errorPayload (some (jsOrUnknown req.id)) "missing_client_id"
          "client_id is required in the request body for /tool_call.")] ∧
      (toolCallHandler run st req).2.countP GwAction.isPush = 0) ∧
    (∀ run st req cid, req.client_id = some cid → cid ≠ "" →
      lookupClient st cid = none →
      (toolCallHandler run st req).2 =
        [.syncReply 400 (.errorPayload (some (jsOrUnknown req.id)) "invalid_client_id"
          ("No active SSE session found for client_id: " ++ cid ++
           ". Please connect to /sse first."))] ∧
      (toolCallHandler run st req).2.countP GwAction.isPush = 0) := by
  refine ⟨?_, ?_, ?_⟩
  · intro run st req h
    simp [toolCallHandler, h, List.countP_cons, List.countP_nil, GwAction.isPush, GwAction.isHandlerInvoked]
  · intro run st req h
    simp [toolCallHandler, h, List.countP_cons, List.countP_nil, GwAction.isPush, GwAction.isHandlerInvoked]
  · intro run st req cid h1 h2 h3
    simp [toolCallHandler, h1, h2, h3, List.countP_cons, List.countP_nil, GwAction.isPush, GwAction.isHandlerInvoked]

/-- Claim C7 witness: the three arms at concrete inputs — absent
client_id, empty client_id, and unmapped client_id nope over a live
registry. -/
theorem c7_client_id_checks_witness :
    ((toolCallHandler runErr stLive ⟨some "m", some "get-alerts", none, none⟩).2 =
      [.syncReply 400 (.errorPayload (some "m") "missing_client_id"
        "client_id is required in the request body for /tool_call.")] ∧
     (toolCallHandler runErr stLive
       ⟨some "m", some "get-alerts", none, none⟩).2.countP GwAction.isPush = 0) ∧
    ((toolCallHandler runErr ⟨[]⟩ reqEmptyCid).2 =
      [.syncReply 400 (.errorPayload (some "m7") "missing_client_id"
        "client_id is required in the request body for /tool_call.")] ∧
     (toolCallHandler runErr ⟨[]⟩ reqEmptyCid).2.countP GwAction.isPush = 0) ∧
    ((toolCallHandler runErr stLive
        ⟨some "m", some "get-alerts", none, some "nope"⟩).2 =
      [.syncReply 400 (.errorPayload (some "m") "invalid_client_id"
        ("No active SSE session found for client_id: nope. Please connect to /sse first."))] ∧
     (toolCallHandler runErr stLive
        ⟨some "m", some "get-alerts", none, some "nope"⟩).2.countP GwAction.isPush = 0) :=
  ⟨c7_client_id_checks.1 runErr stLive ⟨some "m", some "get-alerts", none, none⟩ rfl,
   c7_client_id_checks.2.1 runErr ⟨[]⟩ reqEmptyCid rfl,
   c7_client_id_checks.2.2 runErr stLive ⟨some "m", some "get-alerts", none, some "nope"⟩
     "nope" rfl (by decide) rfl⟩

/-- Claim C10: a request with a live session that omits tool_name entirely
is rejected as unknown_tool — one pushed error Event on that session plus
a synchronous 400 reply with the same payload (the message interpolates
the JS undefined) — and the handler is never invoked. -/
theorem c10_missing_tool_name (run : String → List (String × JsonValue) → HandlerOutcome)
    (st : GatewayState) (req : ToolCallRequest) (cid : String) (ch : Channel)
    (h1 : req.client_id = some cid) (h2 : cid ≠ "")
    (h3 : lookupClient st cid = some ch) (hb : ch.broken = false)
    (h5 : req.tool_name = none) :
    (toolCallHandler run st req).2 =
      [.ssePush cid "mcp" (.errorPayload req.id "unknown_tool"
        "Tool \x27undefined\x27 not found."),
       .syncReply 400 (.errorPayload req.id "unknown_tool"
        "Tool \x27undefined\x27 not found.")] ∧
    (toolCallHandler run st req).2.countP GwAction.isHandlerInvoked = 0 := by
  simp [toolCallHandler, h1, h2, h3, h5, sendSseMessage, hb, List.countP_cons, List.countP_nil, GwAction.isPush, GwAction.isHandlerInvoked]

/-- Claim C10 witness at a concrete request over the live session c. -/
theorem c10_missing_tool_name_witness :
    (toolCallHandler runErr stLive reqNoToolName).2 =
      [.ssePush "c" "mcp" (.errorPayload (some "m10") "unknown_tool"
        "Tool \x27undefined\x27 not found."),
       .syncReply 400 (.errorPayload (some "m10") "unknown_tool"
        "Tool \x27undefined\x27 not found.")] ∧
    (toolCallHandler runErr stLive reqNoToolName).2.countP GwAction.isHandlerInvoked = 0 :=
  c10_missing_tool_name runErr stLive reqNoToolName "c" ⟨false⟩ rfl (by decide) rfl rfl rfl

/-- Claim C3: when session and tool checks pass but the parameter payload
fails schema validation, the gateway pushes one error Event with
error_type invalid_parameters on the session and replies synchronously
with status 400 carrying the identical payload; the message joins the
messages of ALL collected issues (every violated constraint), and the
handler is never invoked. -/
theorem c3_invalid_parameters (run : String → List (String × JsonValue) → HandlerOutcome)
    (st : GatewayState) (req : ToolCallRequest) (cid : String) (ch : Channel)
    (tn : String) (tool : ToolDefinition) (issues : List ZodIssue)
    (h1 : req.client_id = some cid) (h2 : cid ≠ "")
    (h3 : lookupClient st cid = some ch) (hb : ch.broken = false)
    (h4 : req.tool_name = some tn) (h5 : lookupTool tn = some tool)
    (h6 : zodParse tool.schema req.parameters = .error issues) :
    (toolCallHandler run st req).2 =
      [.ssePush cid "mcp" (.errorPayload req.id "invalid_parameters"
        ("Parameter validation failed: " ++ jsJoin ", " (issues.map ZodIssue.message))),
       .syncReply 400 (.errorPayload req.id "invalid_parameters"
        ("Parameter validation failed: " ++ jsJoin ", " (issues.map ZodIssue.message)))] ∧
    (toolCallHandler run st req).2.countP GwAction.isHandlerInvoked = 0 := by
  simp [toolCallHandler, h1, h2, h3, h4, h5, h6, sendSseMessage, hb,
    List.countP_cons, List.countP_nil, GwAction.isHandlerInvoked]

/-- Claim C3 witness: get-forecast with latitude 999 and longitude 999
over the live session c; the rejection message enumerates both violated
bounds. -/
theorem c3_invalid_parameters_witness :
    (toolCallHandler runErr stLive reqForecast999).2 =
      [.ssePush "c" "mcp" (.errorPayload (some "m3") "invalid_parameters"
        ("Parameter validation failed: " ++
         "Number must be less than or equal to 90, Number must be less than or equal to 180")),
       .syncReply 400 (.errorPayload (some "m3") "invalid_parameters"
        ("Parameter validation failed: " ++
         "Number must be less than or equal to 90, Number must be less than or equal to 180"))] ∧
    (toolCallHandler runErr stLive reqForecast999).2.countP GwAction.isHandlerInvoked = 0 := by
  have h := c3_invalid_parameters runErr stLive reqForecast999 "c" ⟨false⟩
    "get-forecast" toolGetForecast
    [⟨"Number must be less than or equal to 90"⟩,
     ⟨"Number must be less than or equal to 180"⟩]
    rfl (by decide) rfl rfl rfl rfl rfl
  simpa [jsJoin] using h

/-- Claim C1 counterexample: at a concrete fully valid invocation over the
live session c, the acceptance reply does NOT precede the handler
invocation nor the result push — in the issued trace the handler runs
first (index 0), the Event push is second (index 1) and the synchronous
202 reply comes last (index 2). -/
theorem c1_counterexample :
    ¬ (((toolCallHandler runOk stLive reqAlertsZZ).2.findIdx GwAction.isAcceptanceReply <
        (toolCallHandler runOk stLive reqAlertsZZ).2.findIdx GwAction.isHandlerInvoked) ∧
       ((toolCallHandler runOk stLive reqAlertsZZ).2.findIdx GwAction.isAcceptanceReply <
        (toolCallHandler runOk stLive reqAlertsZZ).2.findIdx GwAction.isPush)) := by
  decide

/-- Claim C1 amended: for every invocation request that passes all four
checks, the gateway first awaits the tool handler, then pushes the result
(or handler-failure) Event on the channel of the session, and only after the
push issues the synchronous reply — 202 with status processing on handler
success, 500 with error_type tool_error on handler failure. -/
theorem c1_order (run : String → List (String × JsonValue) → HandlerOutcome)
    (st : GatewayState) (req : ToolCallRequest) (cid : String) (ch : Channel)
    (tn : String) (tool : ToolDefinition) (params : List (String × JsonValue))
    (h1 : req.client_id = some cid) (h2 : cid ≠ "")
    (h3 : lookupClient st cid = some ch) (hb : ch.broken = false)
    (h4 : req.tool_name = some tn) (h5 : lookupTool tn = some tool)
    (h6 : zodParse tool.schema req.parameters = .ok params) :
    (toolCallHandler run st req).2 =
      match run tn params with
      | .ok result =>
          [.handlerInvoked tn params,
           .ssePush cid "mcp" (.toolResponse req.id tn result),
           .syncReply 202 (.processing req.id
             "Tool call accepted, response will be sent via SSE.")]
      | .err m =>
          [.handlerInvoked tn params,
           .ssePush cid "mcp" (.errorPayload req.id "tool_error" m),
           .syncReply 500 (.errorPayload req.id "tool_error" m)] := by
  cases hrun : run tn params with
  | ok result =>
      simp [toolCallHandler, h1, h2, h3, h4, h5, h6, hrun, sendSseMessage, hb]
  | err m =>
      simp [toolCallHandler, h1, h2, h3, h4, h5, h6, hrun, sendSseMessage, hb]

/-- Claim C1 witness: the amended order at the concrete valid get-alerts
request over the live session c with an always-resolving handler. -/
theorem c1_order_witness :
    (toolCallHandler runOk stLive reqAlertsZZ).2 =
      [.handlerInvoked "get-alerts" [("state", .str "ZZ")],
       .ssePush "c" "mcp" (.toolResponse (some "m1") "get-alerts" ⟨"text", "ok"⟩),
       .syncReply 202 (.processing (some "m1")
         "Tool call accepted, response will be sent via SSE.")] :=
  c1_order runOk stLive reqAlertsZZ "c" ⟨false⟩ "get-alerts" toolGetAlerts
    [("state", .str "ZZ")] rfl (by decide) rfl rfl rfl rfl rfl

/-- Claim C4 counterexample: invoking brave-web-search with count 25 over
the live session c does push an Event — exactly one error Event is written
to the channel of the session, where the claim asserts that none is pushed. -/
theorem c4_counterexample :
    ¬ ((toolCallHandler runErr stLive reqBrave25).2.countP GwAction.isPush = 0) := by
  decide

/-- Claim C4 amended: invoking brave-web-search with count 25 over a live
session yields the synchronous 400 reply with error_type
invalid_parameters, exactly one error Event with the same payload pushed
on the channel of the session, and the tool handler is never called. -/
theorem c4_count25 (run : String → List (String × JsonValue) → HandlerOutcome)
    (st : GatewayState) (cid : String)
    (h2 : cid ≠ "") (h3 : lookupClient st cid = some ⟨false⟩) :
    (toolCallHandler run st ⟨some "m4", some "brave-web-search",
        some (.obj [("query", .str "x"), ("count", .num 25)]), some cid⟩).2 =
      [.ssePush cid "mcp" (.errorPayload (some "m4") "invalid_parameters"
        "Parameter validation failed: Number must be less than or equal to 20"),
       .syncReply 400 (.errorPayload (some "m4") "invalid_parameters"
        "Parameter validation failed: Number must be less than or equal to 20")] ∧
    (toolCallHandler run st ⟨some "m4", some "brave-web-search",
        some (.obj [("query", .str "x"), ("count", .num 25)]), some cid⟩).2.countP
      GwAction.isHandlerInvoked = 0 := by
  have hl : lookupTool "brave-web-search" = some toolBraveSearch := rfl
  have hz : zodParse toolBraveSearch.schema
      (some (.obj [("query", JsonValue.str "x"), ("count", JsonValue.num 25)])) =
      .error [⟨"Number must be less than or equal to 20"⟩] := rfl
  simp [toolCallHandler, h2, h3, hl, hz, sendSseMessage,
    List.countP_cons, List.countP_nil, GwAction.isHandlerInvoked, jsJoin]

/-- Claim C4 witness: the amended statement at the concrete live
registry. -/
theorem c4_count25_witness :
    (toolCallHandler runErr stLive reqBrave25).2 =
      [.ssePush "c" "mcp" (.errorPayload (some "m4") "invalid_parameters"
        "Parameter validation failed: Number must be less than or equal to 20"),
       .syncReply 400 (.errorPayload (some "m4") "invalid_parameters"
        "Parameter validation failed: Number must be less than or equal to 20")] ∧
    (toolCallHandler runErr stLive reqBrave25).2.countP GwAction.isHandlerInvoked = 0 :=
  c4_count25 runErr stLive "c" (by decide) rfl

/-- Claim C5 counterexample: after a failed push-channel write of an Event
via the send path of the gateway (session c over a channel whose write throws),
the session token is STILL present in the registry — the write failure is
caught and only logged, and no removal happens. -/
theorem c5_counterexample :
    (sendSseMessage stBroken "c" "mcp" payload0).2 = [.sseWriteFailed "c"] ∧
    lookupClient (sendSseMessage stBroken "c" "mcp" payload0).1 "c" = some ⟨true⟩ ∧
    (lookupClient (sendSseMessage stBroken "c" "mcp" payload0).1 "c").isSome = true :=
  ⟨rfl, rfl, rfl⟩

/-- Claim C5 amended: a session is removed from the registry when its
channel closes or errors (the teardown callbacks delete the token, and a
second teardown is a no-op), and when writing the two initial messages
fails during channel open; but a failed write of an Event via the
send path of the gateway never mutates the registry — the token remains. -/
theorem c5_lifecycle :
    (∀ st c, lookupClient (channelTeardown st c) c = none) ∧
    (∀ st c, channelTeardown (channelTeardown st c) c = channelTeardown st c) ∧
    (∀ st now rand,
        lookupClient (sseOpen st now rand ⟨true⟩).1 (genClientId now rand) = none ∧
        (sseOpen st now rand ⟨true⟩).2 = [.sseWriteFailed (genClientId now rand)]) ∧
    (∀ st c e d, (sendSseMessage st c e d).1 = st) := by
  refine ⟨?_, ?_, ?_, ?_⟩
  · intro st c
    exact lookup_mapDelete _ _
  · intro st c
    simp [channelTeardown, mapDelete_idem]
  · intro st now rand
    exact ⟨lookup_mapDelete _ _, rfl⟩
  · intro st c e d
    cases h : lookupClient st c with
    | none => simp [sendSseMessage, h]
    | some ch => cases hb : ch.broken <;> simp [sendSseMessage, h, hb]

/-- Claim C9: a get-alerts invocation with the schema-valid state ZZ over
a live session, where the weather collaborator returns a response with
zero alert features, delivers a tool_response Event whose payload text is
exactly the string No active alerts for ZZ, followed by the 202 processing
reply — a success outcome, not an error. -/
theorem c9_get_alerts_empty (st : GatewayState) (cid : String) (oid : Option String)
    (nws : String → Option AlertsResponse) (resp : AlertsResponse)
    (h2 : cid ≠ "") (h3 : lookupClient st cid = some ⟨false⟩)
    (hn : nws "https://api.weather.gov/alerts?area=ZZ" = some resp)
    (hf : resp.features.getD [] = []) :
    (toolCallHandler (runGetAlerts nws) st (reqAlerts oid cid)).2 =
      [.handlerInvoked "get-alerts" [("state", .str "ZZ")],
       .ssePush cid "mcp" (.toolResponse oid "get-alerts"
         ⟨"text", "No active alerts for ZZ"⟩),
       .syncReply 202 (.processing oid
         "Tool call accepted, response will be sent via SSE.")] := by
  have hurl : NWS_API_BASE ++ "/alerts?area=" ++ jsToUpperCase "ZZ" =
      "https://api.weather.gov/alerts?area=ZZ" := rfl
  have hhandler : getAlertsHandler nws "ZZ" = ⟨"text", "No active alerts for ZZ"⟩ := by
    simp only [getAlertsHandler, hurl, hn, hf]
    rfl
  have hrun : runGetAlerts nws "get-alerts" [("state", JsonValue.str "ZZ")] =
      .ok ⟨"text", "No active alerts for ZZ"⟩ := by
    simp [runGetAlerts, hhandler]
  have hl : lookupTool "get-alerts" = some toolGetAlerts := rfl
  have hz : zodParse toolGetAlerts.schema
      (some (.obj [("state", JsonValue.str "ZZ")])) =
      .ok [("state", JsonValue.str "ZZ")] := rfl
  simp [toolCallHandler, reqAlerts, h2, h3, hl, hz, hrun, sendSseMessage]

/-- Claim C9 witness: concrete collaborator returning zero features,
session c, message id m9. -/
theorem c9_get_alerts_empty_witness :
    (toolCallHandler (runGetAlerts nwsEmpty) stLive (reqAlerts (some "m9") "c")).2 =
      [.handlerInvoked "get-alerts" [("state", .str "ZZ")],
       .ssePush "c" "mcp" (.toolResponse (some "m9") "get-alerts"
         ⟨"text", "No active alerts for ZZ"⟩),
       .syncReply 202 (.processing (some "m9")
         "Tool call accepted, response will be sent via SSE.")] :=
  c9_get_alerts_empty stLive "c" (some "m9") nwsEmpty ⟨some []⟩
    (by decide) rfl rfl rfl
